import Mathlib

/-!
Verification of the Active24 DNS provider adapter
(`src/lexicon/providers/active24.py`).

The Python module translates between lexicon's canonical record
dictionaries and the registrar's wire format, and implements the four
CRUD operations on top of that translation.  This file is a shallow
embedding of that code: Python dictionaries become association lists
with Python's `dict` semantics (`pop` removes the first matching key,
`update` overwrites entries in place and appends fresh keys), raised
exceptions become `Except` errors, and the HTTP layer is represented by
the payloads the code would hand to it (`none` meaning that no request
is issued).
-/

set_option maxHeartbeats 1000000

/-- JSON-ish scalar stored in a record field.  `null` is Python's `None`. -/
inductive PValue where
  | s (v : String)
  | n (v : Nat)
  | null
deriving DecidableEq

/-- A record in the shape lexicon uses (the output of
`__normalize_for_lexicon` / input of `__normalize_for_provider`).
`id = none` means the `"id"` key is absent from the dictionary, while
`id = some PValue.null` means the key is present and maps to `None` —
Python distinguishes the two, and so does the round trip.
`options` is the optional `options` dictionary: an association list
keyed by (lower-cased) record type, each key holding the leftover
provider fields. -/
structure LexiconRecord where
  rtype : String
  name : String
  content : PValue
  ttl : PValue
  id : Option PValue
  options : Option (List (String × List (String × PValue)))
deriving DecidableEq

/-- Python `dict.pop(k)`: remove the first entry with key `k`, returning
the value and the remaining dictionary; `none` when the key is absent. -/
def dictPop (k : String) : List (String × PValue) → Option (PValue × List (String × PValue))
  | [] => none
  | (k', v) :: t =>
    if k' = k then some (v, t)
    else (dictPop k t).map (fun p => (p.1, (k', v) :: p.2))

/-- Python `d[k] = v`: overwrite the entry in place when the key exists,
append it otherwise. -/
def dictSet {β : Type} (l : List (String × β)) (k : String) (v : β) : List (String × β) :=
  match l with
  | [] => [(k, v)]
  | (k', v') :: t => if k' = k then (k, v) :: t else (k', v') :: dictSet t k v

/-- Python `d.update(d2)`. -/
def dictUpdate (l l2 : List (String × PValue)) : List (String × PValue) :=
  l2.foldl (fun acc kv => dictSet acc kv.1 kv.2) l

/-- Python `str.upper()` (ASCII, which is all the adapter uses). -/
def upper (s : String) : String := String.mk (s.data.map Char.toUpper)

/-- Python `str.lower()`. -/
def lower (s : String) : String := String.mk (s.data.map Char.toLower)

/-- Drop every trailing `'.'` from a character list. -/
def dropTrailingDots (l : List Char) : List Char :=
  (l.reverse.dropWhile (fun c => c = '.')).reverse

/-- Python `s.rstrip(".")`. -/
def rstripDots (s : String) : String := String.mk (dropTrailingDots s.data)

/-- Python `s.endswith(t)`. -/
def strEndsWith (s t : String) : Bool := decide (t.data <:+ s.data)

/-- Python `s[:n]` for `0 ≤ n`. -/
def strTake (s : String) (n : Nat) : String := String.mk (s.data.take n)

/-- Python `len(s)`. -/
def strLen (s : String) : Nat := s.data.length

/-- Truthiness of an optional string argument (Python: `None` and `""`
are falsy). -/
def struthy : Option String → Bool
  | some s => s != ""
  | none => false

/-- Truthiness of an optional integer option (Python: `None` and `0`
are falsy). -/
def ntruthy : Option Nat → Bool
  | some v => v != 0
  | none => false

/-- Truthiness of a record field value. -/
def pvTruthy : PValue → Bool
  | PValue.s v => v != ""
  | PValue.n v => v != 0
  | PValue.null => false

/-- `_CONTENT_NAME_MAP`: content field name by record type. -/
def CONTENT_NAME_MAP : List (String × String) :=
  [("A", "ip"), ("AAAA", "ip"), ("CAA", "caaValue"), ("CNAME", "alias"),
   ("MX", "mailserver"), ("NS", "nameServer"), ("SRV", "target"),
   ("SSHFP", "text"), ("TLSA", "hash"), ("TXT", "text")]

/-- `_PRIORITY_TYPE_SET`: record types which accept a priority setting. -/
def PRIORITY_TYPE_SET : List String := ["MX", "SRV"]

/-- `DEFAULT_TTL = timedelta(hours=1).seconds`. -/
def DEFAULT_TTL : Nat := 3600

/-- `self._get_lexicon_option("ttl") or DEFAULT_TTL`. -/
def orDefaultTTL : Option Nat → Nat
  | some t => if t = 0 then DEFAULT_TTL else t
  | none => DEFAULT_TTL

/-- The exceptions the adapter can raise.  `typeError` stands for
Python's built-in `TypeError`, `keyError` for `KeyError`,
`cannotFindExactMatch` for the bare `Exception` raised by
`_update_record`. -/
inductive A24Error where
  | unsupportedRecordType (rtype : String)
  | keyError (key : String)
  | typeError (msg : String)
  | cannotFindExactMatch
deriving DecidableEq

/-- `get_content_name` (module level): look up the content field name,
raising `UnsupportedRecordType` for unknown types. -/
def get_content_name (record_type : String) : Except A24Error String :=
  match List.lookup (upper record_type) CONTENT_NAME_MAP with
  | some v => Except.ok v
  | none => Except.error (A24Error.unsupportedRecordType record_type)

/-- `make_fqdn` (local to `__normalize_for_lexicon`):
`".".join((name, self.domain, ""))`. -/
def make_fqdn (domain nm : String) : String := nm ++ "." ++ domain ++ "."

/-- Local helper `make_name_prefix` of `__normalize_for_provider`: strip
trailing dots, then strip the domain suffix (and separating dots) when
present. -/
def zone_relative_name (domain fqdn : String) : String :=
  let p1 := rstripDots fqdn
  if strEndsWith p1 domain then
    rstripDots (strTake p1 (strLen p1 - strLen domain))
  else p1

/-- `Provider.__normalize_for_lexicon`: convert a provider record
dictionary into a lexicon record.  The pops happen in the source's
evaluation order: `type`, `hashId` (defaulting to `None`), `name`,
`ttl`, then the type-specific content field; whatever is left lands in
`options[rtype.lower()]`. -/
def normalize_for_lexicon (domain : String) (pr0 : List (String × PValue)) :
    Except A24Error LexiconRecord := do
  let tpair ← match dictPop "type" pr0 with
    | some r => Except.ok r
    | none => Except.error (A24Error.keyError "type")
  let ts ← match tpair.1 with
    | PValue.s v => Except.ok v
    | _ => Except.error (A24Error.typeError "type field is not a string")
  let rtype := upper ts
  let idPair := match dictPop "hashId" tpair.2 with
    | some r => r
    | none => (PValue.null, tpair.2)
  let nmPair ← match dictPop "name" idPair.2 with
    | some r => Except.ok r
    | none => Except.error (A24Error.keyError "name")
  let nms ← match nmPair.1 with
    | PValue.s v => Except.ok v
    | _ => Except.error (A24Error.typeError "name field is not a string")
  let ttlPair ← match dictPop "ttl" nmPair.2 with
    | some r => Except.ok r
    | none => Except.error (A24Error.keyError "ttl")
  let cname ← match List.lookup (upper rtype) CONTENT_NAME_MAP with
    | some c => Except.ok c
    | none => Except.error (A24Error.unsupportedRecordType rtype)
  let cPair ← match dictPop cname ttlPair.2 with
    | some r => Except.ok r
    | none => Except.error (A24Error.keyError cname)
  Except.ok
    { rtype := rtype,
      name := make_fqdn domain nms,
      content := cPair.1,
      ttl := ttlPair.1,
      id := some idPair.1,
      options := if cPair.2.isEmpty then none else some [(lower rtype, cPair.2)] }

/-- `Provider.__normalize_for_provider`: convert a lexicon record into
the provider's wire dictionary, returning the `(rtype, record)` pair the
source returns.  `hashId` is attached only for a truthy `id`, and a
truthy `options` dictionary is merged flat into the record (raising
`KeyError` when it lacks the `rtype.lower()` key). -/
def normalize_for_provider (domain : String) (lr : LexiconRecord) :
    Except A24Error (String × List (String × PValue)) := do
  let rtype := lr.rtype
  let cname ← match List.lookup (upper rtype) CONTENT_NAME_MAP with
    | some c => Except.ok c
    | none => Except.error (A24Error.unsupportedRecordType rtype)
  let base : List (String × PValue) :=
    [("name", PValue.s (zone_relative_name domain lr.name)),
     (cname, lr.content),
     ("ttl", lr.ttl)]
  let base1 := match lr.id with
    | some v => if pvTruthy v then dictSet base "hashId" v else base
    | none => base
  let base2 ← match lr.options with
    | some opts =>
      if opts.isEmpty then Except.ok base1
      else
        match List.lookup (lower rtype) opts with
        | some inner => Except.ok (dictUpdate base1 inner)
        | none => Except.error (A24Error.keyError (lower rtype))
    | none => Except.ok base1
  Except.ok (rtype, base2)

/-- The round trip of claim C1: translate a lexicon record to provider
form, reattach the `type` field the way the registrar's responses carry
it, and translate back. -/
def round_trip (domain : String) (lr : LexiconRecord) : Except A24Error LexiconRecord := do
  let pr ← normalize_for_provider domain lr
  normalize_for_lexicon domain (("type", PValue.s pr.1) :: pr.2)

instance {ε α : Type} [DecidableEq ε] [DecidableEq α] : DecidableEq (Except ε α) := fun x y =>
  match x, y with
  | Except.ok a, Except.ok b =>
    if h : a = b then Decidable.isTrue (by rw [h])
    else Decidable.isFalse (fun hc => h (Except.ok.inj hc))
  | Except.error a, Except.error b =>
    if h : a = b then Decidable.isTrue (by rw [h])
    else Decidable.isFalse (fun hc => h (Except.error.inj hc))
  | Except.ok _, Except.error _ => Decidable.isFalse (fun hc => Except.noConfusion hc)
  | Except.error _, Except.ok _ => Decidable.isFalse (fun hc => Except.noConfusion hc)

/-- `map`-with-exceptions over a list, as Python's `list(map(f, it))`
behaves when `f` can raise: elements are converted in order and the
first raise aborts the whole listing. -/
def mapExcept {α β : Type} (f : α → Except A24Error β) : List α → Except A24Error (List β)
  | [] => Except.ok []
  | a :: t => do
    let b ← f a
    let bs ← mapExcept f t
    Except.ok (b :: bs)

/-- The `match_type` filter of `_list_records`: built only for a truthy
`rtype` argument; a `None` filter passed to Python's `filter` keeps
truthy elements, and normalized record dictionaries are never empty, so
it keeps everything. -/
def match_type (rtype : Option String) (r : LexiconRecord) : Bool :=
  if struthy rtype then r.rtype == rtype.getD "" else true

/-- The `match_name` filter of `_list_records`. -/
def match_name (nm : Option String) (r : LexiconRecord) : Bool :=
  if struthy nm then r.name == nm.getD "" else true

/-- The `match_content` filter of `_list_records` (the content argument
reaches it as a string). -/
def match_content (content : Option String) (r : LexiconRecord) : Bool :=
  if struthy content then r.content == PValue.s (content.getD "") else true

/-- `Provider._list_records`: normalize every record of the zone listing
(the decoded `GET /dns/{domain}/records/v1` body), then apply the three
filters in sequence. -/
def list_records (domain : String) (zone : List (List (String × PValue)))
    (rtype nm content : Option String) : Except A24Error (List LexiconRecord) := do
  let canon ← mapExcept (normalize_for_lexicon domain) zone
  let l1 := canon.filter (match_type rtype)
  let l2 := l1.filter (match_name nm)
  let l3 := l2.filter (match_content content)
  Except.ok l3

/-- `Provider.__assemble_lexicon_record`. -/
def assemble_lexicon_record (ttl_opt : Option Nat) (identifier : Option String)
    (rtype nm : String) (content : PValue) : LexiconRecord :=
  { rtype := upper rtype,
    name := nm,
    content := content,
    ttl := PValue.n (orDefaultTTL ttl_opt),
    id := match identifier with
      | some s => if s = "" then none else some (PValue.s s)
      | none => none,
    options := none }

/-- `Provider._create_record`.  The result's boolean is the Python
return value; the `Option` component carries the payload handed to
`self._post`, `none` meaning that no creation request was issued.
`__normalize_for_provider` returns a `(rtype, record)` pair, and the
source's `record["priority"] = ...` is item assignment on that pair,
which raises `TypeError` — hence the error on the `_PRIORITY_TYPE_SET`
branch. -/
def create_record (domain : String) (ttl_opt _pri_opt : Option Nat)
    (zone : List (List (String × PValue))) (rtype nm content : String) :
    Except A24Error (Bool × Option (String × List (String × PValue))) := do
  let existing ← list_records domain zone (some rtype) (some nm) (some content)
  if existing.isEmpty then do
    let record ← normalize_for_provider domain
      (assemble_lexicon_record ttl_opt none rtype nm (PValue.s content))
    if rtype ∈ PRIORITY_TYPE_SET then
      Except.error (A24Error.typeError "tuple item assignment")
    else
      Except.ok (true, some record)
  else
    Except.ok (true, none)

/-- The `options`/`record_options` `setdefault` dance of
`_update_record` that stores a truthy priority option under
`options[rtype.lower()]["priority"]`. -/
def optionsWithPriority (o : Option (List (String × List (String × PValue))))
    (k : String) (p : PValue) : List (String × List (String × PValue)) :=
  let opts := o.getD []
  match List.lookup k opts with
  | some inner => dictSet opts k (dictSet inner "priority" p)
  | none => opts ++ [(k, [("priority", p)])]

/-- `Provider._update_record`.  A successful result is the
`(rtype, record)` pair handed to `self._put` (the source passes the pair
itself as the JSON body); `Except.error A24Error.cannotFindExactMatch`
is the `Exception("Cannot find exact match, won't update")` raise, on
which no update request is issued.  The source resolves via
`_list_records(rtype, name)` whenever `not all((identifier, rtype,
name, content))`. -/
def update_record (domain : String) (ttl_opt pri_opt : Option Nat)
    (zone : List (List (String × PValue)))
    (identifier rtype nm content : Option String) :
    Except A24Error (String × List (String × PValue)) := do
  let allFour := struthy identifier && struthy rtype && struthy nm && struthy content
  let lr0 ←
    if allFour then
      Except.ok (assemble_lexicon_record ttl_opt identifier (rtype.getD "") (nm.getD "")
        (PValue.s (content.getD "")))
    else do
      let ms ← list_records domain zone rtype nm none
      match ms with
      | [r] => Except.ok r
      | _ => Except.error A24Error.cannotFindExactMatch
  let rt := if struthy rtype then rtype.getD "" else lr0.rtype
  let lr1 := if struthy rtype then { lr0 with rtype := rtype.getD "" } else lr0
  let lr2 := if struthy identifier then
      { lr1 with id := some (PValue.s (identifier.getD "")) } else lr1
  let lr3 := if struthy nm then { lr2 with name := nm.getD "" } else lr2
  let lr4 := if struthy content then
      { lr3 with content := PValue.s (content.getD "") } else lr3
  let pri := if rt ∈ PRIORITY_TYPE_SET then pri_opt else none
  let lr5 := if ntruthy pri then
      { lr4 with options := some (optionsWithPriority lr4.options (lower rt)
          (PValue.n (pri.getD 0))) }
    else lr4
  normalize_for_provider domain lr5

/-- `Provider._delete_record`.  The result is the Python return value
paired with the `hashId` used in the `DELETE` URL (`none` meaning that
no deletion request was issued).  Without a truthy identifier the record
is resolved via `_list_records(rtype, name)`; anything but exactly one
match logs a warning and returns `False` without deleting. -/
def delete_record (domain : String) (zone : List (List (String × PValue)))
    (identifier rtype nm _content : Option String) :
    Except A24Error (Bool × Option PValue) := do
  if struthy identifier then
    Except.ok (true, some (PValue.s (identifier.getD "")))
  else do
    let ms ← list_records domain zone rtype nm none
    match ms with
    | [m] => Except.ok (true, m.id)
    | _ => Except.ok (false, none)

/-! ### Helper lemmas -/

theorem String.mk_data (s : String) : String.mk s.data = s := by
  cases s
  rfl

theorem data_ne_nil {s : String} (h : s ≠ "") : s.data ≠ [] := by
  intro hc
  exact h (String.ext (by rw [hc]))

theorem dropTrailingDots_concat_dot (l : List Char) :
    dropTrailingDots (l ++ ['.']) = dropTrailingDots l := by
  unfold dropTrailingDots
  rw [List.reverse_append]
  simp [List.dropWhile]

theorem dropTrailingDots_append {m l : List Char}
    (h : dropTrailingDots l = l) (hne : l ≠ []) :
    dropTrailingDots (m ++ l) = m ++ l := by
  have h' : l.reverse.dropWhile (fun c => decide (c = '.')) = l.reverse := by
    have h2 := congrArg List.reverse h
    simpa [dropTrailingDots] using h2
  obtain ⟨c, t, hrev⟩ : ∃ c t, l.reverse = c :: t := by
    cases hr : l.reverse with
    | nil =>
      exact absurd (by simpa using congrArg List.reverse hr) hne
    | cons c t => exact ⟨c, t, rfl⟩
  have hc : decide (c = '.') = false := by
    cases hcc : decide (c = '.') with
    | false => rfl
    | true =>
      rw [hrev, List.dropWhile_cons, hcc] at h'
      simp only [if_true] at h'
      have hlen := congrArg List.length h'
      have hle := (List.dropWhile_sublist (l := t) (fun c => decide (c = '.'))).length_le
      simp only [List.length_cons] at hlen
      omega
  have hl : l = t.reverse ++ [c] := by
    have h2 := congrArg List.reverse hrev
    simpa using h2
  unfold dropTrailingDots
  rw [List.reverse_append, hrev, List.cons_append, List.dropWhile_cons, hc]
  simp [hl]

theorem rstripDots_concat_dot (s : String) : rstripDots (s ++ ".") = rstripDots s := by
  unfold rstripDots
  rw [String.data_append]
  have hdot : ("." : String).data = ['.'] := rfl
  rw [hdot, dropTrailingDots_concat_dot]

theorem rstripDots_append {s t : String} (h : rstripDots t = t) (hne : t ≠ "") :
    rstripDots (s ++ t) = s ++ t := by
  have hdata : dropTrailingDots t.data = t.data := congrArg String.data h
  apply String.ext
  unfold rstripDots
  rw [String.data_append]
  exact dropTrailingDots_append hdata (data_ne_nil hne)

theorem strTake_data_left (a b : String) : strTake (a ++ b) a.data.length = a := by
  unfold strTake
  rw [String.data_append, List.take_left, String.mk_data]

theorem zone_relative_name_sub (d p : String) (hd : rstripDots d = d) (hdne : d ≠ "")
    (hp : rstripDots p = p) :
    zone_relative_name d (p ++ "." ++ d ++ ".") = p := by
  have h1 : rstripDots (p ++ "." ++ d ++ ".") = p ++ "." ++ d := by
    rw [rstripDots_concat_dot]
    exact rstripDots_append hd hdne
  have h2 : strEndsWith (p ++ "." ++ d) d = true := by
    unfold strEndsWith
    rw [decide_eq_true_eq, String.data_append]
    exact List.suffix_append (p ++ ".").data d.data
  have h3 : strLen (p ++ "." ++ d) - strLen d = (p ++ ".").data.length := by
    simp only [strLen, String.data_append, List.length_append]
    omega
  have h5 : rstripDots (p ++ ".") = p := by
    rw [rstripDots_concat_dot, hp]
  simp only [zone_relative_name, h1]
  rw [if_pos h2, h3, strTake_data_left (p ++ ".") d, h5]

theorem zone_relative_name_apex (d : String) (hd : rstripDots d = d) :
    zone_relative_name d d = "" ∧ zone_relative_name d (d ++ ".") = "" := by
  have h2 : strEndsWith d d = true := by
    unfold strEndsWith
    rw [decide_eq_true_eq]
  constructor
  case left =>
    simp only [zone_relative_name, hd]
    rw [if_pos h2, Nat.sub_self]
    rfl
  case right =>
    have h1 : rstripDots (d ++ ".") = d := by
      rw [rstripDots_concat_dot, hd]
    simp only [zone_relative_name, h1]
    rw [if_pos h2, Nat.sub_self]
    rfl

theorem lookup_mem_values {a b : String} :
    ∀ {l : List (String × String)}, List.lookup a l = some b → b ∈ l.map Prod.snd := by
  intro l
  induction l with
  | nil => intro h; simp [List.lookup] at h
  | cons hd tl ih =>
    intro h
    cases hbe : (a == hd.1) with
    | true =>
      rw [List.lookup, hbe] at h
      simp only [Option.some.injEq] at h
      simp [h]
    | false =>
      rw [List.lookup, hbe] at h
      simp [ih h]

theorem content_name_ne {t cn : String} (h : List.lookup t CONTENT_NAME_MAP = some cn) :
    cn ≠ "name" ∧ cn ≠ "ttl" ∧ cn ≠ "hashId" ∧ cn ≠ "type" := by
  have hm := lookup_mem_values h
  simp only [CONTENT_NAME_MAP, List.map, List.mem_cons, List.not_mem_nil, or_false] at hm
  rcases hm with h | h | h | h | h | h | h | h | h | h <;> subst h <;>
    exact ⟨by decide, by decide, by decide, by decide⟩

theorem dictSet_eq_append {β : Type} {l : List (String × β)} {k : String} {v : β}
    (h : k ∉ l.map Prod.fst) : dictSet l k v = l ++ [(k, v)] := by
  induction l with
  | nil => rfl
  | cons hd tl ih =>
    cases hd with
    | mk k' v' =>
      have hne : ¬ k' = k := by
        intro hc
        exact h (by simp [hc])
      rw [dictSet, if_neg hne,
        ih (fun hm => h (by simp only [List.map_cons, List.mem_cons]; exact Or.inr hm))]
      simp

theorem dictUpdate_eq_append {l l2 : List (String × PValue)}
    (hdisj : ∀ k ∈ l2.map Prod.fst, k ∉ l.map Prod.fst)
    (hnd : (l2.map Prod.fst).Nodup) :
    dictUpdate l l2 = l ++ l2 := by
  induction l2 generalizing l with
  | nil => simp [dictUpdate]
  | cons hd tl ih =>
    cases hd with
    | mk k v =>
      have h1 : dictSet l k v = l ++ [(k, v)] := dictSet_eq_append (hdisj k (by simp))
      have h2 : ∀ k' ∈ tl.map Prod.fst, k' ∉ (l ++ [(k, v)]).map Prod.fst := by
        intro k' hk' hc
        simp only [List.map_append, List.mem_append] at hc
        rcases hc with hc | hc
        case inl => exact hdisj k' (by simp [hk']) hc
        case inr =>
          simp only [List.map_cons, List.map_nil, List.mem_singleton] at hc
          subst hc
          simp only [List.map_cons, List.nodup_cons] at hnd
          exact hnd.1 hk'
      have h3 : (tl.map Prod.fst).Nodup := by
        simp only [List.map_cons, List.nodup_cons] at hnd
        exact hnd.2
      simp only [dictUpdate, List.foldl_cons] at ih ⊢
      rw [h1, ih h2 h3]
      simp

theorem except_bind_ok {ε α β : Type} (a : α) (f : α → Except ε β) :
    (Except.ok a >>= f : Except ε β) = f a := rfl

theorem except_bind_err {ε α β : Type} (e : ε) (f : α → Except ε β) :
    (Except.error e >>= f : Except ε β) = Except.error e := rfl

theorem normalize_for_lexicon_cons (d t cn p i : String) (cv tv : PValue)
    (opts : List (String × PValue))
    (hup : upper t = t)
    (ht : List.lookup t CONTENT_NAME_MAP = some cn) :
    normalize_for_lexicon d
      (("type", PValue.s t) :: ("name", PValue.s p) :: (cn, cv) :: ("ttl", tv) ::
        ("hashId", PValue.s i) :: opts) =
    Except.ok
      { rtype := t, name := make_fqdn d p, content := cv, ttl := tv,
        id := some (PValue.s i),
        options := if opts.isEmpty then none else some [(lower t, opts)] } := by
  obtain ⟨h1, h2, h3, h4⟩ := content_name_ne ht
  simp +decide [normalize_for_lexicon, dictPop, hup, ht, h1, h2, h3, h4,
    except_bind_ok, except_bind_err]

theorem char_toNat_ofNat_valid {m : Nat} (h : m.isValidChar) : (Char.ofNat m).toNat = m := by
  unfold Char.ofNat
  rw [dif_pos h]
  rfl

theorem char_toUpper_idem (c : Char) : c.toUpper.toUpper = c.toUpper := by
  unfold Char.toUpper
  by_cases h : c.toNat ≥ 97 ∧ c.toNat ≤ 122
  · rw [if_pos h]
    have hv : (c.toNat - 32).isValidChar := Or.inl (by omega)
    have ht : (Char.ofNat (c.toNat - 32)).toNat = c.toNat - 32 := char_toNat_ofNat_valid hv
    rw [if_neg (by omega)]
  · rw [if_neg h, if_neg h]

theorem upper_idem (s : String) : upper (upper s) = upper s := by
  unfold upper
  apply String.ext
  show (s.data.map Char.toUpper).map Char.toUpper = s.data.map Char.toUpper
  rw [List.map_map]
  exact List.map_congr_left (fun c _ => char_toUpper_idem c)

/-- Helper: `__normalize_for_provider` can only raise
`UnsupportedRecordType` or `KeyError`, never the update resolution
failure. -/
theorem normalize_for_provider_ne_cfem (d : String) (lr : LexiconRecord) :
    normalize_for_provider d lr ≠ Except.error A24Error.cannotFindExactMatch := by
  unfold normalize_for_provider
  cases hl : List.lookup (upper lr.rtype) CONTENT_NAME_MAP with
  | none => simp [hl, except_bind_ok, except_bind_err]
  | some cn =>
    cases ho : lr.options with
    | none => simp [hl, ho, except_bind_ok, except_bind_err]
    | some opts =>
      cases he : opts.isEmpty with
      | true => simp [hl, ho, he, except_bind_ok, except_bind_err]
      | false =>
        cases hlk : List.lookup (lower lr.rtype) opts with
        | none => simp [hl, ho, he, hlk, except_bind_ok, except_bind_err]
        | some inner => simp [hl, ho, he, hlk, except_bind_ok, except_bind_err]

/-- Helper: a successful `__normalize_for_lexicon` stores the
upper-cased raw `type` field. -/
theorem normalize_rtype_upper (d ts : String) (rest : List (String × PValue))
    (r : LexiconRecord)
    (hb : normalize_for_lexicon d (("type", PValue.s ts) :: rest) = Except.ok r) :
    r.rtype = upper ts := by
  have hpop : dictPop "type" (("type", PValue.s ts) :: rest) =
      some (PValue.s ts, rest) := by
    simp [dictPop]
  simp only [normalize_for_lexicon, hpop, except_bind_ok] at hb
  repeat
    first
    | (exact Except.noConfusion hb)
    | (split at hb)
    | (simp only [except_bind_ok, except_bind_err] at hb)
  all_goals
    cases hb
    try rfl

/-- The conjunction of the three `_list_records` filters. -/
def matchesAll (rt nm ct : Option String) (r : LexiconRecord) : Bool :=
  match_type rt r && match_name nm r && match_content ct r

theorem filter_three {mt mn mc : LexiconRecord → Bool} (l : List LexiconRecord) :
    ((l.filter mt).filter mn).filter mc = l.filter (fun r => mt r && mn r && mc r) := by
  induction l with
  | nil => rfl
  | cons a t ih =>
    cases hmt : mt a <;> cases hmn : mn a <;> cases hmc : mc a <;>
      simp [List.filter_cons, hmt, hmn, hmc, ih, -List.filter_filter]

/-- Helper: mapping `__normalize_for_lexicon` over a zone listing fails
with `UnsupportedRecordType` when some record has an unsupported type
and every record is either well-formed or of unsupported type. -/
theorem mapExcept_unsupported (d : String) :
    ∀ (zone : List (List (String × PValue))),
    (∀ q ∈ zone, (∃ r, normalize_for_lexicon d q = Except.ok r) ∨
      ∃ u, normalize_for_lexicon d q = Except.error (A24Error.unsupportedRecordType u)) →
    (∃ q ∈ zone, ∃ u, normalize_for_lexicon d q =
      Except.error (A24Error.unsupportedRecordType u)) →
    ∃ u, mapExcept (normalize_for_lexicon d) zone =
      Except.error (A24Error.unsupportedRecordType u) := by
  intro zone
  induction zone with
  | nil =>
    intro _ h2
    simp at h2
  | cons a tl ih =>
    intro h1 h2
    rcases h1 a (by simp) with ⟨r, hr⟩ | ⟨u, hu⟩
    case cons.inr.intro =>
      exact ⟨u, by simp [mapExcept, hu, except_bind_err]⟩
    case cons.inl.intro =>
      have h2' : ∃ q ∈ tl, ∃ u, normalize_for_lexicon d q =
          Except.error (A24Error.unsupportedRecordType u) := by
        rcases h2 with ⟨q, hq, u, hqe⟩
        rcases List.mem_cons.mp hq with rfl | hq'
        · rw [hr] at hqe
          cases hqe
        · exact ⟨q, hq', u, hqe⟩
      obtain ⟨u, hmap⟩ := ih (fun q hq => h1 q (by simp [hq])) h2'
      exact ⟨u, by simp [mapExcept, hr, hmap, except_bind_ok, except_bind_err]⟩

/-! ### C1: round trip between canonical and provider form -/

/-- C1 (counterexample): the round-trip law fails as stated.  The
well-formed canonical A record `{type: "A", name: "www.example.com.",
content: "1.2.3.4", ttl: 3600}` — no `id`, as for a record not yet
created — does not come back unchanged: `__normalize_for_provider`
omits `hashId` for a missing `id`, but `__normalize_for_lexicon`
unconditionally stores `provider_record.pop("hashId", None)`, so the
record returns with an explicit `id: None` entry and is not equal (as a
Python dictionary) to the original. -/
theorem round_trip_drops_missing_id :
    round_trip "example.com"
      { rtype := "A", name := "www.example.com.", content := PValue.s "1.2.3.4",
        ttl := PValue.n 3600, id := none, options := none } ≠
    Except.ok
      { rtype := "A", name := "www.example.com.", content := PValue.s "1.2.3.4",
        ttl := PValue.n 3600, id := none, options := none } := by
  decide

/-- C1 (amended): the round trip `__normalize_for_lexicon ∘
__normalize_for_provider` reproduces a canonical record exactly for
every supported record type `t` (stored upper-case, content field `cn`),
provided the record carries a non-empty `id`, its name is
`p.domain.` for a zone `domain` without trailing dots (covering every
proper subdomain of the zone), and its `options`, when present, hold a
non-empty dictionary under the `t.lower()` key whose field names are
distinct and avoid the provider's reserved field names — extra
type-specific fields such as `priority` are preserved. -/
theorem round_trip_exact (d t cn p i : String) (cv tv : PValue)
    (o : Option (List (String × List (String × PValue))))
    (hup : upper t = t)
    (ht : List.lookup t CONTENT_NAME_MAP = some cn)
    (hd : rstripDots d = d) (hdne : d ≠ "")
    (hp : rstripDots p = p)
    (hi : i ≠ "")
    (hopt : o = none ∨ ∃ opts, o = some [(lower t, opts)] ∧ opts ≠ [] ∧
      (opts.map Prod.fst).Nodup ∧
      ∀ k ∈ opts.map Prod.fst, k ≠ "name" ∧ k ≠ cn ∧ k ≠ "ttl" ∧ k ≠ "hashId") :
    round_trip d
      { rtype := t, name := p ++ "." ++ d ++ ".", content := cv, ttl := tv,
        id := some (PValue.s i), options := o } =
    Except.ok
      { rtype := t, name := p ++ "." ++ d ++ ".", content := cv, ttl := tv,
        id := some (PValue.s i), options := o } := by
  obtain ⟨h1, h2, h3, h4⟩ := content_name_ne ht
  have hzr := zone_relative_name_sub d p hd hdne hp
  have hit : pvTruthy (PValue.s i) = true := by
    simp only [pvTruthy, bne_iff_ne, ne_eq]
    exact hi
  have hset : dictSet
      [("name", PValue.s p), (cn, cv), ("ttl", tv)] "hashId" (PValue.s i) =
      [("name", PValue.s p), (cn, cv), ("ttl", tv), ("hashId", PValue.s i)] := by
    rw [dictSet_eq_append (by simp +decide [Ne.symm h3])]
    rfl
  rcases hopt with rfl | ⟨opts, rfl, hone, hnd, hkeys⟩
  · have hprov : normalize_for_provider d
        { rtype := t, name := p ++ "." ++ d ++ ".", content := cv, ttl := tv,
          id := some (PValue.s i), options := none } =
        Except.ok (t, [("name", PValue.s p), (cn, cv), ("ttl", tv),
          ("hashId", PValue.s i)]) := by
      simp only [normalize_for_provider, hup, ht, hzr, hit, if_true, hset,
        except_bind_ok]
    rw [round_trip, hprov, except_bind_ok]
    rw [normalize_for_lexicon_cons d t cn p i cv tv [] hup ht]
    rfl
  · have hdisj : ∀ k ∈ opts.map Prod.fst,
        k ∉ ([("name", PValue.s p), (cn, cv), ("ttl", tv),
          ("hashId", PValue.s i)].map Prod.fst) := by
      intro k hk
      obtain ⟨hk1, hk2, hk3, hk4⟩ := hkeys k hk
      simp [hk1, hk2, hk3, hk4]
    have hupd : dictUpdate [("name", PValue.s p), (cn, cv), ("ttl", tv),
        ("hashId", PValue.s i)] opts =
        ("name", PValue.s p) :: (cn, cv) :: ("ttl", tv) ::
          ("hashId", PValue.s i) :: opts := by
      rw [dictUpdate_eq_append hdisj hnd]
      rfl
    have hlook : List.lookup (lower t) [(lower t, opts)] = some opts := by
      simp [List.lookup]
    have hprov : normalize_for_provider d
        { rtype := t, name := p ++ "." ++ d ++ ".", content := cv, ttl := tv,
          id := some (PValue.s i), options := some [(lower t, opts)] } =
        Except.ok (t, ("name", PValue.s p) :: (cn, cv) :: ("ttl", tv) ::
          ("hashId", PValue.s i) :: opts) := by
      simp only [normalize_for_provider, hup, ht, hzr, hit, if_true, hset,
        hlook, hupd, except_bind_ok, List.isEmpty_cons, Bool.false_eq_true,
        if_false]
    rw [round_trip, hprov, except_bind_ok]
    rw [normalize_for_lexicon_cons d t cn p i cv tv opts hup ht]
    simp [hone, make_fqdn]

/-- C1 (witness): the amended round-trip law at a concrete MX record
whose options carry a priority field. -/
theorem round_trip_exact_witness :
    round_trip "example.com"
      { rtype := "MX", name := "mail" ++ "." ++ "example.com" ++ ".",
        content := PValue.s "mx1.example.com", ttl := PValue.n 3600,
        id := some (PValue.s "h1"),
        options := some [(lower "MX", [("priority", PValue.n 10)])] } =
    Except.ok
      { rtype := "MX", name := "mail" ++ "." ++ "example.com" ++ ".",
        content := PValue.s "mx1.example.com", ttl := PValue.n 3600,
        id := some (PValue.s "h1"),
        options := some [(lower "MX", [("priority", PValue.n 10)])] } :=
  round_trip_exact "example.com" "MX" "mailserver" "mail" "h1"
    (PValue.s "mx1.example.com") (PValue.n 3600)
    (some [(lower "MX", [("priority", PValue.n 10)])])
    (by decide) (by decide) (by decide) (by decide) (by decide) (by decide)
    (Or.inr ⟨[("priority", PValue.n 10)], rfl, by decide, by decide, by decide⟩)

/-! ### C2: ambiguous resolution for update/delete without identifier -/

/-- C2: an update or delete call without an identifier resolves via
`_list_records(rtype, name)`; when the matching records number anything
but exactly one, update raises (`Exception("Cannot find exact match,
won't update")`) and delete returns `False`, and neither issues a
mutation request (no `PUT` payload is produced, and the delete result
carries no `hashId` to `DELETE`). -/
theorem resolve_ambiguous_fails (d : String) (ttl pri : Option Nat)
    (zone : List (List (String × PValue)))
    (idf rt nm ct : Option String) (ms : List LexiconRecord)
    (hid : struthy idf = false)
    (hlist : list_records d zone rt nm none = Except.ok ms)
    (hms : ms.length ≠ 1) :
    update_record d ttl pri zone idf rt nm ct = Except.error A24Error.cannotFindExactMatch ∧
    delete_record d zone idf rt nm ct = Except.ok (false, none) := by
  constructor
  · simp only [update_record, hid, Bool.false_and, Bool.false_eq_true, if_false,
      hlist, except_bind_ok]
    rcases ms with _ | ⟨r, _ | ⟨r2, tl⟩⟩
    · rfl
    · simp at hms
    · rfl
  · simp only [delete_record, hid, Bool.false_eq_true, if_false, hlist,
      except_bind_ok]
    rcases ms with _ | ⟨r, _ | ⟨r2, tl⟩⟩
    · rfl
    · simp at hms
    · rfl

/-- C2 (witness): a zone holding two `www` A records; update without an
identifier raises and delete returns `False`. -/
theorem resolve_ambiguous_fails_witness :
    struthy none = false ∧
    list_records "example.com"
      [[("type", PValue.s "A"), ("hashId", PValue.s "h1"), ("name", PValue.s "www"),
        ("ttl", PValue.n 300), ("ip", PValue.s "1.1.1.1")],
       [("type", PValue.s "A"), ("hashId", PValue.s "h2"), ("name", PValue.s "www"),
        ("ttl", PValue.n 300), ("ip", PValue.s "2.2.2.2")]]
      (some "A") (some "www.example.com.") none =
      Except.ok
        [{ rtype := "A", name := "www.example.com.", content := PValue.s "1.1.1.1",
           ttl := PValue.n 300, id := some (PValue.s "h1"), options := none },
         { rtype := "A", name := "www.example.com.", content := PValue.s "2.2.2.2",
           ttl := PValue.n 300, id := some (PValue.s "h2"), options := none }] ∧
    update_record "example.com" none none
      [[("type", PValue.s "A"), ("hashId", PValue.s "h1"), ("name", PValue.s "www"),
        ("ttl", PValue.n 300), ("ip", PValue.s "1.1.1.1")],
       [("type", PValue.s "A"), ("hashId", PValue.s "h2"), ("name", PValue.s "www"),
        ("ttl", PValue.n 300), ("ip", PValue.s "2.2.2.2")]]
      none (some "A") (some "www.example.com.") none =
      Except.error A24Error.cannotFindExactMatch ∧
    delete_record "example.com"
      [[("type", PValue.s "A"), ("hashId", PValue.s "h1"), ("name", PValue.s "www"),
        ("ttl", PValue.n 300), ("ip", PValue.s "1.1.1.1")],
       [("type", PValue.s "A"), ("hashId", PValue.s "h2"), ("name", PValue.s "www"),
        ("ttl", PValue.n 300), ("ip", PValue.s "2.2.2.2")]]
      none (some "A") (some "www.example.com.") none =
      Except.ok (false, none) := by
  refine ⟨rfl, by decide, ?_⟩
  exact resolve_ambiguous_fails "example.com" none none
    [[("type", PValue.s "A"), ("hashId", PValue.s "h1"), ("name", PValue.s "www"),
      ("ttl", PValue.n 300), ("ip", PValue.s "1.1.1.1")],
     [("type", PValue.s "A"), ("hashId", PValue.s "h2"), ("name", PValue.s "www"),
      ("ttl", PValue.n 300), ("ip", PValue.s "2.2.2.2")]]
    none (some "A") (some "www.example.com.") none
    [{ rtype := "A", name := "www.example.com.", content := PValue.s "1.1.1.1",
       ttl := PValue.n 300, id := some (PValue.s "h1"), options := none },
     { rtype := "A", name := "www.example.com.", content := PValue.s "2.2.2.2",
       ttl := PValue.n 300, id := some (PValue.s "h2"), options := none }]
    rfl (by decide) (by decide)

/-! ### C3: content does not disambiguate update/delete resolution -/

/-- C3 (counterexample): with two A records of the same name and
different contents, a delete (or update) supplying the content of one of
them still fails as ambiguous — `_update_record` and `_delete_record`
resolve via `_list_records(rtype, name)` and never pass the content
filter, so the call does not act on the named record. -/
theorem content_filter_ignored_cex :
    delete_record "example.com"
      [[("type", PValue.s "A"), ("hashId", PValue.s "k1"), ("name", PValue.s "api"),
        ("ttl", PValue.n 120), ("ip", PValue.s "10.0.0.1")],
       [("type", PValue.s "A"), ("hashId", PValue.s "k2"), ("name", PValue.s "api"),
        ("ttl", PValue.n 120), ("ip", PValue.s "10.0.0.2")]]
      none (some "A") (some "api.example.com.") (some "10.0.0.1") =
      Except.ok (false, none) ∧
    update_record "example.com" none none
      [[("type", PValue.s "A"), ("hashId", PValue.s "k1"), ("name", PValue.s "api"),
        ("ttl", PValue.n 120), ("ip", PValue.s "10.0.0.1")],
       [("type", PValue.s "A"), ("hashId", PValue.s "k2"), ("name", PValue.s "api"),
        ("ttl", PValue.n 120), ("ip", PValue.s "10.0.0.2")]]
      none (some "A") (some "api.example.com.") (some "10.0.0.1") =
      Except.error A24Error.cannotFindExactMatch := by
  constructor
  · decide
  · decide

/-- C3 (amended): for a zone where type and name match exactly two
records, delete and update without an identifier fail as ambiguous for
EVERY content argument — supplying the content of one of the records
does not resolve the ambiguity, because resolution ignores content. -/
theorem content_does_not_disambiguate (d : String) (ttl pri : Option Nat)
    (zone : List (List (String × PValue)))
    (idf rt nm ct : Option String) (r1 r2 : LexiconRecord)
    (hid : struthy idf = false)
    (hlist : list_records d zone rt nm none = Except.ok [r1, r2]) :
    delete_record d zone idf rt nm ct = Except.ok (false, none) ∧
    update_record d ttl pri zone idf rt nm ct = Except.error A24Error.cannotFindExactMatch := by
  constructor
  · simp only [delete_record, hid, Bool.false_eq_true, if_false, hlist,
      except_bind_ok]
  · simp only [update_record, hid, Bool.false_and, Bool.false_eq_true, if_false,
      hlist, except_bind_ok, except_bind_err]

/-- C3 (witness): the amended statement at a concrete two-record zone
with the content of the first record supplied. -/
theorem content_does_not_disambiguate_witness :
    struthy none = false ∧
    list_records "zone.test"
      [[("type", PValue.s "A"), ("hashId", PValue.s "x1"), ("name", PValue.s "db"),
        ("ttl", PValue.n 60), ("ip", PValue.s "172.16.0.1")],
       [("type", PValue.s "A"), ("hashId", PValue.s "x2"), ("name", PValue.s "db"),
        ("ttl", PValue.n 60), ("ip", PValue.s "172.16.0.2")]]
      (some "A") (some "db.zone.test.") none =
      Except.ok
        [{ rtype := "A", name := "db.zone.test.", content := PValue.s "172.16.0.1",
           ttl := PValue.n 60, id := some (PValue.s "x1"), options := none },
         { rtype := "A", name := "db.zone.test.", content := PValue.s "172.16.0.2",
           ttl := PValue.n 60, id := some (PValue.s "x2"), options := none }] ∧
    delete_record "zone.test"
      [[("type", PValue.s "A"), ("hashId", PValue.s "x1"), ("name", PValue.s "db"),
        ("ttl", PValue.n 60), ("ip", PValue.s "172.16.0.1")],
       [("type", PValue.s "A"), ("hashId", PValue.s "x2"), ("name", PValue.s "db"),
        ("ttl", PValue.n 60), ("ip", PValue.s "172.16.0.2")]]
      none (some "A") (some "db.zone.test.") (some "172.16.0.1") =
      Except.ok (false, none) ∧
    update_record "zone.test" none none
      [[("type", PValue.s "A"), ("hashId", PValue.s "x1"), ("name", PValue.s "db"),
        ("ttl", PValue.n 60), ("ip", PValue.s "172.16.0.1")],
       [("type", PValue.s "A"), ("hashId", PValue.s "x2"), ("name", PValue.s "db"),
        ("ttl", PValue.n 60), ("ip", PValue.s "172.16.0.2")]]
      none (some "A") (some "db.zone.test.") (some "172.16.0.1") =
      Except.error A24Error.cannotFindExactMatch := by
  refine ⟨rfl, by decide, ?_, ?_⟩
  · exact (content_does_not_disambiguate "zone.test" none none
      [[("type", PValue.s "A"), ("hashId", PValue.s "x1"), ("name", PValue.s "db"),
        ("ttl", PValue.n 60), ("ip", PValue.s "172.16.0.1")],
       [("type", PValue.s "A"), ("hashId", PValue.s "x2"), ("name", PValue.s "db"),
        ("ttl", PValue.n 60), ("ip", PValue.s "172.16.0.2")]]
      none (some "A") (some "db.zone.test.") (some "172.16.0.1")
      { rtype := "A", name := "db.zone.test.", content := PValue.s "172.16.0.1",
        ttl := PValue.n 60, id := some (PValue.s "x1"), options := none }
      { rtype := "A", name := "db.zone.test.", content := PValue.s "172.16.0.2",
        ttl := PValue.n 60, id := some (PValue.s "x2"), options := none }
      rfl (by decide)).1
  · exact (content_does_not_disambiguate "zone.test" none none
      [[("type", PValue.s "A"), ("hashId", PValue.s "x1"), ("name", PValue.s "db"),
        ("ttl", PValue.n 60), ("ip", PValue.s "172.16.0.1")],
       [("type", PValue.s "A"), ("hashId", PValue.s "x2"), ("name", PValue.s "db"),
        ("ttl", PValue.n 60), ("ip", PValue.s "172.16.0.2")]]
      none (some "A") (some "db.zone.test.") (some "172.16.0.1")
      { rtype := "A", name := "db.zone.test.", content := PValue.s "172.16.0.1",
        ttl := PValue.n 60, id := some (PValue.s "x1"), options := none }
      { rtype := "A", name := "db.zone.test.", content := PValue.s "172.16.0.2",
        ttl := PValue.n 60, id := some (PValue.s "x2"), options := none }
      rfl (by decide)).2

/-! ### C4: update with identifier still resolves unless all fields are given -/

/-- C4 (counterexample): an update that supplies an identifier, type and
name but no content still takes the resolution path — the source checks
`not all((identifier, rtype, name, content))`, not just the identifier —
and fails as ambiguous on a two-record zone, contradicting the claim
that an identifier rules out the fetch and any ambiguity failure. -/
theorem update_with_identifier_still_ambiguous :
    update_record "example.com" none none
      [[("type", PValue.s "A"), ("hashId", PValue.s "w1"), ("name", PValue.s "web"),
        ("ttl", PValue.n 60), ("ip", PValue.s "3.3.3.3")],
       [("type", PValue.s "A"), ("hashId", PValue.s "w2"), ("name", PValue.s "web"),
        ("ttl", PValue.n 60), ("ip", PValue.s "4.4.4.4")]]
      (some "w1") (some "A") (some "web.example.com.") none =
      Except.error A24Error.cannotFindExactMatch := by
  decide

/-- C4 (amended): only when identifier, type, name AND content are all
supplied does update build the submitted record directly from those
fields: the result is then independent of the zone contents (no fetch or
resolution happens) and an ambiguity failure is impossible on that
path.  If any of the four is missing — even with an identifier present —
the zone is fetched and resolution may fail as ambiguous. -/
theorem update_full_args_no_fetch (d : String) (ttl pri : Option Nat)
    (zone zone' : List (List (String × PValue)))
    (idf rt nm ct : Option String)
    (hid : struthy idf = true) (hrt : struthy rt = true)
    (hnm : struthy nm = true) (hct : struthy ct = true) :
    update_record d ttl pri zone idf rt nm ct = update_record d ttl pri zone' idf rt nm ct ∧
    update_record d ttl pri zone idf rt nm ct ≠ Except.error A24Error.cannotFindExactMatch := by
  constructor
  · simp only [update_record, hid, hrt, hnm, hct, Bool.true_and, Bool.and_self,
      if_true, except_bind_ok]
  · simp only [update_record, hid, hrt, hnm, hct, Bool.true_and, Bool.and_self,
      if_true, except_bind_ok]
    apply normalize_for_provider_ne_cfem

/-- C4 (witness): a fully-specified update is insensitive to the zone
(here: the empty zone versus a populated one) and cannot raise the
ambiguity failure. -/
theorem update_full_args_no_fetch_witness :
    struthy (some "id9") = true ∧
    (update_record "example.com" none none [] (some "id9") (some "TXT")
        (some "note.example.com.") (some "hello") =
      update_record "example.com" none none
        [[("type", PValue.s "TXT"), ("hashId", PValue.s "t1"), ("name", PValue.s "note"),
          ("ttl", PValue.n 60), ("text", PValue.s "old")]]
        (some "id9") (some "TXT") (some "note.example.com.") (some "hello")) ∧
    update_record "example.com" none none [] (some "id9") (some "TXT")
      (some "note.example.com.") (some "hello") ≠
      Except.error A24Error.cannotFindExactMatch := by
  refine ⟨rfl, ?_, ?_⟩
  · exact (update_full_args_no_fetch "example.com" none none []
      [[("type", PValue.s "TXT"), ("hashId", PValue.s "t1"), ("name", PValue.s "note"),
        ("ttl", PValue.n 60), ("text", PValue.s "old")]]
      (some "id9") (some "TXT") (some "note.example.com.") (some "hello")
      rfl rfl rfl rfl).1
  · exact (update_full_args_no_fetch "example.com" none none []
      [[("type", PValue.s "TXT"), ("hashId", PValue.s "t1"), ("name", PValue.s "note"),
        ("ttl", PValue.n 60), ("text", PValue.s "old")]]
      (some "id9") (some "TXT") (some "note.example.com.") (some "hello")
      rfl rfl rfl rfl).2

/-! ### C5: idempotent create -/

/-- C5: when `_list_records(rtype, name, content)` finds at least one
exactly-matching record, `_create_record` returns `True` immediately and
issues no creation request (no `POST` payload is produced).  In
particular, a second create whose zone already holds the record stored
by the first identical call takes this path — the witness below runs
that scenario. -/
theorem create_idempotent_on_match (d : String) (ttl pri : Option Nat)
    (zone : List (List (String × PValue))) (rt nm ct : String)
    (ms : List LexiconRecord)
    (hlist : list_records d zone (some rt) (some nm) (some ct) = Except.ok ms)
    (hne : ms ≠ []) :
    create_record d ttl pri zone rt nm ct = Except.ok (true, none) := by
  simp only [create_record, hlist, except_bind_ok]
  rcases ms with _ | ⟨r, tl⟩
  · exact absurd rfl hne
  · rfl

/-- C5 (witness): create called twice with identical arguments.  The
first call on an empty zone posts `("A", {name: "www2", ip: "9.9.9.9",
ttl: 3600})`; the zone below is exactly that payload as the registrar
then lists it (with its `type` echoed back), and the second identical
call issues no creation request and still returns success. -/
theorem create_idempotent_on_match_witness :
    create_record "example.com" none none [] "A" "www2.example.com." "9.9.9.9" =
      Except.ok (true, some ("A", [("name", PValue.s "www2"),
        ("ip", PValue.s "9.9.9.9"), ("ttl", PValue.n 3600)])) ∧
    list_records "example.com"
      [[("type", PValue.s "A"), ("name", PValue.s "www2"),
        ("ip", PValue.s "9.9.9.9"), ("ttl", PValue.n 3600)]]
      (some "A") (some "www2.example.com.") (some "9.9.9.9") =
      Except.ok
        [{ rtype := "A", name := "www2.example.com.", content := PValue.s "9.9.9.9",
           ttl := PValue.n 3600, id := some PValue.null, options := none }] ∧
    create_record "example.com" none none
      [[("type", PValue.s "A"), ("name", PValue.s "www2"),
        ("ip", PValue.s "9.9.9.9"), ("ttl", PValue.n 3600)]]
      "A" "www2.example.com." "9.9.9.9" = Except.ok (true, none) := by
  refine ⟨by decide, by decide, ?_⟩
  exact create_idempotent_on_match "example.com" none none
    [[("type", PValue.s "A"), ("name", PValue.s "www2"),
      ("ip", PValue.s "9.9.9.9"), ("ttl", PValue.n 3600)]]
    "A" "www2.example.com." "9.9.9.9"
    [{ rtype := "A", name := "www2.example.com.", content := PValue.s "9.9.9.9",
       ttl := PValue.n 3600, id := some PValue.null, options := none }]
    (by decide) (by decide)

/-! ### C6: priority handling in create -/

/-- C6: creating a record of a priority-bearing type does not emit (or
omit) a top-level `priority` field as claimed — it raises `TypeError`
whether or not a priority option is supplied.  `__normalize_for_provider`
returns a `(rtype, record)` tuple and `_create_record` executes
`record["priority"] = self._get_lexicon_option("priority") or 0` on that
tuple, which Python rejects (tuples do not support item assignment);
the same happens for SRV.  (Had `record` been the dictionary, the code
would still send `priority: 0` rather than omit the field when no
priority is supplied.) -/
theorem create_priority_type_raises_type_error :
    create_record "example.com" none (some 10) [] "MX" "mail.example.com."
      "mx1.example.com." =
      Except.error (A24Error.typeError "tuple item assignment") ∧
    create_record "example.com" none none [] "MX" "mail.example.com."
      "mx1.example.com." =
      Except.error (A24Error.typeError "tuple item assignment") ∧
    create_record "example.com" none (some 10) [] "SRV" "_sip._tcp.example.com."
      "sip.example.com." =
      Except.error (A24Error.typeError "tuple item assignment") := by
  refine ⟨by decide, by decide, by decide⟩

/-! ### C7: conjunctive filter semantics of list -/

/-- C7: over a zone whose records all normalize, `_list_records` with no
filters returns every record in the provider's response order; with
filters it returns exactly the records satisfying the conjunction of all
supplied filters (a record is in the result iff it is in the zone's
canonical listing and matches every supplied filter); an empty result is
`Except.ok []`, not an error. -/
theorem list_records_conjunctive_semantics (d : String)
    (zone : List (List (String × PValue))) (canon : List LexiconRecord)
    (rt nm ct : Option String) (r : LexiconRecord)
    (hz : mapExcept (normalize_for_lexicon d) zone = Except.ok canon) :
    list_records d zone none none none = Except.ok canon ∧
    list_records d zone rt nm ct = Except.ok (canon.filter (matchesAll rt nm ct)) ∧
    (r ∈ canon.filter (matchesAll rt nm ct) ↔ r ∈ canon ∧ matchesAll rt nm ct r = true) := by
  refine ⟨?_, ?_, ?_⟩
  · simp only [list_records, hz, except_bind_ok]
    simp [match_type, match_name, match_content, struthy]
  · simp only [list_records, hz, except_bind_ok, filter_three]
    rfl
  · exact List.mem_filter

/-- C7 (witness): a two-record zone; no filters returns both records,
and a content filter matching nothing returns `Except.ok []` rather
than an error. -/
theorem list_records_conjunctive_semantics_witness :
    mapExcept (normalize_for_lexicon "example.com")
      [[("type", PValue.s "A"), ("hashId", PValue.s "p1"), ("name", PValue.s "a"),
        ("ttl", PValue.n 60), ("ip", PValue.s "7.7.7.7")],
       [("type", PValue.s "TXT"), ("hashId", PValue.s "p2"), ("name", PValue.s "b"),
        ("ttl", PValue.n 60), ("text", PValue.s "hi")]] =
      Except.ok
        [{ rtype := "A", name := "a.example.com.", content := PValue.s "7.7.7.7",
           ttl := PValue.n 60, id := some (PValue.s "p1"), options := none },
         { rtype := "TXT", name := "b.example.com.", content := PValue.s "hi",
           ttl := PValue.n 60, id := some (PValue.s "p2"), options := none }] ∧
    (list_records "example.com"
      [[("type", PValue.s "A"), ("hashId", PValue.s "p1"), ("name", PValue.s "a"),
        ("ttl", PValue.n 60), ("ip", PValue.s "7.7.7.7")],
       [("type", PValue.s "TXT"), ("hashId", PValue.s "p2"), ("name", PValue.s "b"),
        ("ttl", PValue.n 60), ("text", PValue.s "hi")]] none none none =
      Except.ok
        [{ rtype := "A", name := "a.example.com.", content := PValue.s "7.7.7.7",
           ttl := PValue.n 60, id := some (PValue.s "p1"), options := none },
         { rtype := "TXT", name := "b.example.com.", content := PValue.s "hi",
           ttl := PValue.n 60, id := some (PValue.s "p2"), options := none }] ∧
    list_records "example.com"
      [[("type", PValue.s "A"), ("hashId", PValue.s "p1"), ("name", PValue.s "a"),
        ("ttl", PValue.n 60), ("ip", PValue.s "7.7.7.7")],
       [("type", PValue.s "TXT"), ("hashId", PValue.s "p2"), ("name", PValue.s "b"),
        ("ttl", PValue.n 60), ("text", PValue.s "hi")]]
      (some "A") none (some "no-such-content") =
      Except.ok
        ([{ rtype := "A", name := "a.example.com.", content := PValue.s "7.7.7.7",
            ttl := PValue.n 60, id := some (PValue.s "p1"), options := none },
          { rtype := "TXT", name := "b.example.com.", content := PValue.s "hi",
            ttl := PValue.n 60, id := some (PValue.s "p2"), options := none }].filter
          (matchesAll (some "A") none (some "no-such-content"))) ∧
    (({ rtype := "A", name := "a.example.com.", content := PValue.s "7.7.7.7",
        ttl := PValue.n 60, id := some (PValue.s "p1"),
        options := none } : LexiconRecord) ∈
      ([{ rtype := "A", name := "a.example.com.", content := PValue.s "7.7.7.7",
          ttl := PValue.n 60, id := some (PValue.s "p1"), options := none },
        { rtype := "TXT", name := "b.example.com.", content := PValue.s "hi",
          ttl := PValue.n 60, id := some (PValue.s "p2"), options := none }].filter
        (matchesAll (some "A") none (some "no-such-content"))) ↔
      ({ rtype := "A", name := "a.example.com.", content := PValue.s "7.7.7.7",
         ttl := PValue.n 60, id := some (PValue.s "p1"),
         options := none } : LexiconRecord) ∈
        [{ rtype := "A", name := "a.example.com.", content := PValue.s "7.7.7.7",
           ttl := PValue.n 60, id := some (PValue.s "p1"), options := none },
         { rtype := "TXT", name := "b.example.com.", content := PValue.s "hi",
           ttl := PValue.n 60, id := some (PValue.s "p2"), options := none }] ∧
        matchesAll (some "A") none (some "no-such-content")
          { rtype := "A", name := "a.example.com.", content := PValue.s "7.7.7.7",
            ttl := PValue.n 60, id := some (PValue.s "p1"), options := none } = true)) := by
  refine ⟨by decide, ?_⟩
  exact list_records_conjunctive_semantics "example.com"
    [[("type", PValue.s "A"), ("hashId", PValue.s "p1"), ("name", PValue.s "a"),
      ("ttl", PValue.n 60), ("ip", PValue.s "7.7.7.7")],
     [("type", PValue.s "TXT"), ("hashId", PValue.s "p2"), ("name", PValue.s "b"),
      ("ttl", PValue.n 60), ("text", PValue.s "hi")]]
    [{ rtype := "A", name := "a.example.com.", content := PValue.s "7.7.7.7",
       ttl := PValue.n 60, id := some (PValue.s "p1"), options := none },
     { rtype := "TXT", name := "b.example.com.", content := PValue.s "hi",
       ttl := PValue.n 60, id := some (PValue.s "p2"), options := none }]
    (some "A") none (some "no-such-content")
    { rtype := "A", name := "a.example.com.", content := PValue.s "7.7.7.7",
      ttl := PValue.n 60, id := some (PValue.s "p1"), options := none }
    (by decide)

/-! ### C8: unsupported record types fail both directions and the whole listing -/

/-- C8: for a type `t` whose upper-cased form is outside
`_CONTENT_NAME_MAP`, `__normalize_for_provider` fails with
`UnsupportedRecordType` (both translators are pure, so no network call
is involved), `__normalize_for_lexicon` fails with
`UnsupportedRecordType` on any otherwise well-formed provider record of
that type, and `_list_records` over a zone containing such a record
fails as a whole with `UnsupportedRecordType` for every combination of
filters — the filters cannot exclude the record because every record is
normalized before filtering. -/
theorem unsupported_type_fails_everywhere (d t nm : String) (lr : LexiconRecord)
    (hv tv : PValue) (rest : List (String × PValue))
    (zone : List (List (String × PValue))) (rt onm oc : Option String)
    (hl : List.lookup (upper t) CONTENT_NAME_MAP = none)
    (hlr : lr.rtype = t)
    (h1 : ∀ q ∈ zone, (∃ r, normalize_for_lexicon d q = Except.ok r) ∨
      ∃ u, normalize_for_lexicon d q = Except.error (A24Error.unsupportedRecordType u))
    (h2 : ∃ q ∈ zone, ∃ u, normalize_for_lexicon d q =
      Except.error (A24Error.unsupportedRecordType u)) :
    normalize_for_provider d lr = Except.error (A24Error.unsupportedRecordType t) ∧
    normalize_for_lexicon d (("type", PValue.s t) :: ("hashId", hv) ::
      ("name", PValue.s nm) :: ("ttl", tv) :: rest) =
      Except.error (A24Error.unsupportedRecordType (upper t)) ∧
    ∃ u, list_records d zone rt onm oc =
      Except.error (A24Error.unsupportedRecordType u) := by
  refine ⟨?_, ?_, ?_⟩
  · simp only [normalize_for_provider, hlr, hl, except_bind_err]
  · simp +decide [normalize_for_lexicon, dictPop, upper_idem, hl,
      except_bind_ok, except_bind_err]
  · obtain ⟨u, hmap⟩ := mapExcept_unsupported d zone h1 h2
    exact ⟨u, by simp [list_records, hmap, except_bind_err]⟩

/-- C8 (witness): `SPF` is unsupported; a zone holding a good A record
and an SPF record fails to list even under filters that exclude the SPF
record. -/
theorem unsupported_type_fails_everywhere_witness :
    List.lookup (upper "SPF") CONTENT_NAME_MAP = none ∧
    normalize_for_provider "example.com"
      { rtype := "SPF", name := "example.com.", content := PValue.s "v=spf1 -all",
        ttl := PValue.n 60, id := none, options := none } =
      Except.error (A24Error.unsupportedRecordType "SPF") ∧
    normalize_for_lexicon "example.com" (("type", PValue.s "SPF") ::
      ("hashId", PValue.s "s1") :: ("name", PValue.s "") :: ("ttl", PValue.n 60) ::
      [("text", PValue.s "v=spf1 -all")]) =
      Except.error (A24Error.unsupportedRecordType (upper "SPF")) ∧
    (∃ u, list_records "example.com"
      [[("type", PValue.s "A"), ("hashId", PValue.s "g1"), ("name", PValue.s "ok"),
        ("ttl", PValue.n 60), ("ip", PValue.s "8.8.8.8")],
       [("type", PValue.s "SPF"), ("hashId", PValue.s "s1"), ("name", PValue.s ""),
        ("ttl", PValue.n 60), ("text", PValue.s "v=spf1 -all")]]
      (some "A") (some "ok.example.com.") (some "8.8.8.8") =
      Except.error (A24Error.unsupportedRecordType u)) := by
  refine ⟨by decide, ?_⟩
  exact unsupported_type_fails_everywhere "example.com" "SPF" "" 
    { rtype := "SPF", name := "example.com.", content := PValue.s "v=spf1 -all",
      ttl := PValue.n 60, id := none, options := none }
    (PValue.s "s1") (PValue.n 60) [("text", PValue.s "v=spf1 -all")]
    [[("type", PValue.s "A"), ("hashId", PValue.s "g1"), ("name", PValue.s "ok"),
      ("ttl", PValue.n 60), ("ip", PValue.s "8.8.8.8")],
     [("type", PValue.s "SPF"), ("hashId", PValue.s "s1"), ("name", PValue.s ""),
      ("ttl", PValue.n 60), ("text", PValue.s "v=spf1 -all")]]
    (some "A") (some "ok.example.com.") (some "8.8.8.8")
    (by decide) rfl
    (by
      intro q hq
      simp only [List.mem_cons, List.not_mem_nil, or_false] at hq
      rcases hq with rfl | rfl
      · exact Or.inl
          ⟨{ rtype := "A", name := "ok.example.com.",
             content := PValue.s "8.8.8.8", ttl := PValue.n 60,
             id := some (PValue.s "g1"), options := none },
           by decide⟩
      · exact Or.inr ⟨"SPF", by decide⟩)
    ⟨[("type", PValue.s "SPF"), ("hashId", PValue.s "s1"), ("name", PValue.s ""),
      ("ttl", PValue.n 60), ("text", PValue.s "v=spf1 -all")],
     by simp, "SPF", by decide⟩

/-! ### C9: case handling of the record type -/

/-- C9 (counterexample): operations do NOT behave identically across the
case of the type argument.  With an existing `www` A record, create with
type `"A"` detects the duplicate and issues no creation request, while
the same create with type `"a"` misses it (the duplicate check compares
the raw argument against the stored upper-case type) and posts a
creation payload. -/
theorem create_lowercase_type_bypasses_duplicate_check :
    create_record "example.com" none none
      [[("type", PValue.s "A"), ("hashId", PValue.s "c1"), ("name", PValue.s "www"),
        ("ttl", PValue.n 3600), ("ip", PValue.s "1.2.3.4")]]
      "A" "www.example.com." "1.2.3.4" = Except.ok (true, none) ∧
    create_record "example.com" none none
      [[("type", PValue.s "A"), ("hashId", PValue.s "c1"), ("name", PValue.s "www"),
        ("ttl", PValue.n 3600), ("ip", PValue.s "1.2.3.4")]]
      "a" "www.example.com." "1.2.3.4" =
      Except.ok (true, some ("A", [("name", PValue.s "www"),
        ("ip", PValue.s "1.2.3.4"), ("ttl", PValue.n 3600)])) := by
  refine ⟨by decide, by decide⟩

/-- C9 (amended): the STORED canonical type is upper-case — both
`__assemble_lexicon_record` and `__normalize_for_lexicon` upper-case the
raw type — but the operations are case-sensitive in their behaviour:
create's duplicate check compares the caller's raw type string against
the stored upper-case type, so a type that lists no record under its raw
spelling (for instance a lower-case spelling of an existing record's
type) proceeds to issue a creation request, while the upper-case
spelling detecting a match issues none.  (The priority branch
`rtype in _PRIORITY_TYPE_SET` is equally case-sensitive, so `"mx"` also
skips the MX/SRV priority handling that `"MX"` reaches.) -/
theorem type_case_handling (d : String) (ttl pri : Option Nat)
    (idf : Option String) (rt0 nm0 : String) (cv0 : PValue)
    (ts : String) (rest : List (String × PValue)) (r : LexiconRecord)
    (zone : List (List (String × PValue))) (rt rtU nm ct : String)
    (pay : String × List (String × PValue)) (ms : List LexiconRecord)
    (hb : normalize_for_lexicon d (("type", PValue.s ts) :: rest) = Except.ok r)
    (hnom : list_records d zone (some rt) (some nm) (some ct) = Except.ok [])
    (hdup : list_records d zone (some rtU) (some nm) (some ct) = Except.ok ms)
    (hne : ms ≠ [])
    (hnp : rt ∉ PRIORITY_TYPE_SET)
    (hprov : normalize_for_provider d
      (assemble_lexicon_record ttl none rt nm (PValue.s ct)) = Except.ok pay) :
    (assemble_lexicon_record ttl idf rt0 nm0 cv0).rtype = upper rt0 ∧
    r.rtype = upper ts ∧
    create_record d ttl pri zone rtU nm ct = Except.ok (true, none) ∧
    create_record d ttl pri zone rt nm ct = Except.ok (true, some pay) := by
  refine ⟨rfl, normalize_rtype_upper d ts rest r hb, ?_, ?_⟩
  · simp only [create_record, hdup, except_bind_ok]
    rcases ms with _ | ⟨m, tl⟩
    · exact absurd rfl hne
    · rfl
  · simp only [create_record, hnom, except_bind_ok, List.isEmpty_nil, if_true,
      hprov]
    rw [if_neg hnp]

/-- C9 (witness): the amended statement at the concrete zone of the
counterexample — `"a"` bypasses the duplicate check that `"A"` passes,
and stored types are upper-cased. -/
theorem type_case_handling_witness :
    normalize_for_lexicon "example.com"
      (("type", PValue.s "a") :: [("hashId", PValue.s "c1"), ("name", PValue.s "www"),
        ("ttl", PValue.n 3600), ("ip", PValue.s "1.2.3.4")]) =
      Except.ok
        { rtype := "A", name := "www.example.com.", content := PValue.s "1.2.3.4",
          ttl := PValue.n 3600, id := some (PValue.s "c1"), options := none } ∧
    ((assemble_lexicon_record none none "mx" "m.example.com."
      (PValue.s "x")).rtype = upper "mx" ∧
    ({ rtype := "A", name := "www.example.com.", content := PValue.s "1.2.3.4",
       ttl := PValue.n 3600, id := some (PValue.s "c1"),
       options := none } : LexiconRecord).rtype = upper "a" ∧
    create_record "example.com" none none
      [[("type", PValue.s "A"), ("hashId", PValue.s "c1"), ("name", PValue.s "www"),
        ("ttl", PValue.n 3600), ("ip", PValue.s "1.2.3.4")]]
      "A" "www.example.com." "1.2.3.4" = Except.ok (true, none) ∧
    create_record "example.com" none none
      [[("type", PValue.s "A"), ("hashId", PValue.s "c1"), ("name", PValue.s "www"),
        ("ttl", PValue.n 3600), ("ip", PValue.s "1.2.3.4")]]
      "a" "www.example.com." "1.2.3.4" =
      Except.ok (true, some ("A", [("name", PValue.s "www"),
        ("ip", PValue.s "1.2.3.4"), ("ttl", PValue.n 3600)]))) := by
  refine ⟨by decide, ?_⟩
  exact type_case_handling "example.com" none none none "mx" "m.example.com."
    (PValue.s "x") "a"
    [("hashId", PValue.s "c1"), ("name", PValue.s "www"),
     ("ttl", PValue.n 3600), ("ip", PValue.s "1.2.3.4")]
    { rtype := "A", name := "www.example.com.", content := PValue.s "1.2.3.4",
      ttl := PValue.n 3600, id := some (PValue.s "c1"), options := none }
    [[("type", PValue.s "A"), ("hashId", PValue.s "c1"), ("name", PValue.s "www"),
      ("ttl", PValue.n 3600), ("ip", PValue.s "1.2.3.4")]]
    "a" "A" "www.example.com." "1.2.3.4"
    ("A", [("name", PValue.s "www"), ("ip", PValue.s "1.2.3.4"),
      ("ttl", PValue.n 3600)])
    [{ rtype := "A", name := "www.example.com.", content := PValue.s "1.2.3.4",
       ttl := PValue.n 3600, id := some (PValue.s "c1"), options := none }]
    (by decide) (by decide) (by decide) (by decide) (by decide) (by decide)

/-! ### C10: apex name translation asymmetry -/

/-- C10: at the zone apex the two name translations are asymmetric —
`make_name_prefix` maps both the zone name and the zone name with a
trailing dot to the empty prefix, while `make_fqdn` maps the empty
provider prefix to `"." ++ domain ++ "."` (a leading-dot FQDN, not the
bare apex FQDN `domain ++ "."`), as the final conjunct shows on a full
provider record with an empty zone-relative name. -/
theorem apex_name_translation_asymmetry (d : String) (hv cv tv : PValue)
    (hd : rstripDots d = d) :
    zone_relative_name d d = "" ∧
    zone_relative_name d (d ++ ".") = "" ∧
    make_fqdn d "" = "." ++ d ++ "." ∧
    make_fqdn d "" ≠ d ++ "." ∧
    normalize_for_lexicon d [("type", PValue.s "A"), ("hashId", hv),
      ("name", PValue.s ""), ("ttl", tv), ("ip", cv)] =
      Except.ok
        { rtype := "A", name := make_fqdn d "", content := cv, ttl := tv,
          id := some hv, options := none } := by
  obtain ⟨h1, h2⟩ := zone_relative_name_apex d hd
  have h3 : make_fqdn d "" = "." ++ d ++ "." := by
    apply String.ext
    simp [make_fqdn, String.data_append]
  refine ⟨h1, h2, h3, ?_, ?_⟩
  · intro hc
    have hlen := congrArg (fun s => s.data.length) hc
    simp [make_fqdn, String.data_append] at hlen
  · have hu1 : upper "A" = "A" := by decide
    have hlk : List.lookup "A" CONTENT_NAME_MAP = some "ip" := by decide
    simp +decide [normalize_for_lexicon, dictPop, except_bind_ok, hu1, hlk]

/-- C10 (witness): the asymmetry at the concrete zone `example.com`. -/
theorem apex_name_translation_asymmetry_witness :
    rstripDots "example.com" = "example.com" ∧
    (zone_relative_name "example.com" "example.com" = "" ∧
    zone_relative_name "example.com" ("example.com" ++ ".") = "" ∧
    make_fqdn "example.com" "" = "." ++ "example.com" ++ "." ∧
    make_fqdn "example.com" "" ≠ "example.com" ++ "." ∧
    normalize_for_lexicon "example.com" [("type", PValue.s "A"),
      ("hashId", PValue.s "a7"), ("name", PValue.s ""), ("ttl", PValue.n 60),
      ("ip", PValue.s "5.5.5.5")] =
      Except.ok
        { rtype := "A", name := make_fqdn "example.com" "",
          content := PValue.s "5.5.5.5", ttl := PValue.n 60,
          id := some (PValue.s "a7"), options := none }) := by
  refine ⟨by decide, ?_⟩
  exact apex_name_translation_asymmetry "example.com" (PValue.s "a7")
    (PValue.s "5.5.5.5") (PValue.n 60) (by decide)
